import Mathlib

set_option maxHeartbeats 1000000

/-!
Shallow embedding of `predict.py` from the cog-Qwen1.5-110B adapter.

The adapter has two components:
* a weight provisioner: `download_weights` (subprocess call to `pget`) and
  `Predictor.setup`, which downloads weights only when the path `MODEL_ID`
  does not exist and then constructs the vLLM engine;
* a generation adapter: `VLLMPipeline.__call__`, which normalizes the sampling
  knobs into a `SamplingParams` record, renders the chat-style prompt through
  the tokenizer's chat template, and drives the engine's asynchronous stream
  of cumulative `RequestOutput`s step by step, yielding incremental string
  fragments until the stream raises `StopAsyncIteration`.

The embedding models the filesystem as a predicate on paths, the `pget`
subprocess as an ambient exit-code function, and the engine's asynchronous
stream as a finite list of emitted items followed by a terminator which is
either a normal `StopAsyncIteration` or a raised exception.  Generated text is
modelled as `List Char` (Python `str` slicing `s[k:]` becomes `List.drop`).
-/

/-- Weights path, `MODEL_ID = "Qwen"` in `predict.py`. -/
def MODEL_ID : String := "Qwen"

/-- Fixed download URL, `WEIGHTS_URL` in `predict.py`. -/
def WEIGHTS_URL : String :=
  "https://weights.replicate.delivery/default/qwen/Qwen1.5-110B/model.tar"

/-- Default for `max_new_tokens`. -/
def DEFAULT_MAX_NEW_TOKENS : Nat := 256

/-- Default for `temperature`. -/
def DEFAULT_TEMPERATURE : ℚ := 0.7

/-- Default for `top_p`. -/
def DEFAULT_TOP_P : ℚ := 0.8

/-- Default for `top_k`. -/
def DEFAULT_TOP_K : Int := 50

/-- Default for `repetition_penalty`. -/
def DEFAULT_REPETITION_PENALTY : ℚ := 1.05

/-- Result of running `Predictor.setup` over a modelled filesystem: the
filesystem after the run, the list of `pget` invocations `(url, dest)` made,
the raised `CalledProcessError` exit status if any, and whether control
reached the construction of the `VLLMPipeline` engine. -/
structure SetupResult where
  fs : String → Bool
  downloads : List (String × String)
  error : Option Nat
  engineConstructed : Bool

/-- Model of `download_weights(url, dest)`: one `pget -x url dest` subprocess
invocation through the ambient exit-code model `runPget`.
`subprocess.check_call` raises `CalledProcessError` exactly on a nonzero exit
status; on success the extraction makes `dest` exist.  Returns the filesystem
after the call, the invocation record, and the raised status if any. -/
def download_weights (runPget : String → String → Nat) (fs : String → Bool)
    (url dest : String) : (String → Bool) × List (String × String) × Option Nat :=
  let code := runPget url dest
  if code = 0 then (fun p => if p = dest then true else fs p, [(url, dest)], none)
  else (fs, [(url, dest)], some code)

/-- Model of `Predictor.setup`: if the path `MODEL_ID` does not exist, call
`download_weights(WEIGHTS_URL, MODEL_ID)`; a raised error propagates unchanged
and the engine is then not constructed, otherwise the `VLLMPipeline` engine is
constructed. -/
def Predictor.setup (fs : String → Bool) (runPget : String → String → Nat) :
    SetupResult :=
  if fs MODEL_ID then
    { fs := fs, downloads := [], error := none, engineConstructed := true }
  else
    let r := download_weights runPget fs WEIGHTS_URL MODEL_ID
    match r.2.2 with
    | none => { fs := r.1, downloads := r.2.1, error := none, engineConstructed := true }
    | some c => { fs := r.1, downloads := r.2.1, error := some c, engineConstructed := false }

/-- One candidate completion inside a vLLM `RequestOutput`; `text` is the
cumulative generated text so far. -/
structure CompletionOutput where
  text : List Char
deriving DecidableEq

/-- One item of the engine's asynchronous stream: a `RequestOutput` carrying
the list of candidate outputs (`request_output.outputs`). -/
structure RequestOutput where
  outputs : List CompletionOutput
deriving DecidableEq

/-- How the engine's asynchronous stream ends: either normally (the iterator
raises `StopAsyncIteration`) or by raising some other exception. -/
inductive StreamEnd where
  | stopIteration
  | raise (msg : String)
deriving DecidableEq

/-- The engine's asynchronous stream for one request: the finite list of
emitted items, then the terminator. -/
structure EngineStream where
  items : List RequestOutput
  ending : StreamEnd
deriving DecidableEq

/-- Exceptions that can escape the synchronous generator of
`VLLMPipeline.__call__`: the `assert len(request_output.outputs) == 1`
failure, or an exception raised by the engine. -/
inductive PyError where
  | assertionError
  | engineError (msg : String)
deriving DecidableEq

/-- One chat message, a Python dict with keys `role` and `content`. -/
structure Message where
  role : String
  content : String
deriving DecidableEq

/-- The tokenizer surface the adapter uses: the EOS token id, `decode` on a
single token id, and `apply_chat_template` applied to a message list with the
keyword arguments `tokenize` and `add_generation_prompt`, in that order. -/
structure Tokenizer where
  eos_token_id : Nat
  decode : Nat → String
  apply_chat_template : List Message → Bool → Bool → List Char

/-- vLLM `SamplingParams` as constructed at lines 73-82 of `predict.py`. -/
structure SamplingParams where
  n : Nat
  top_p : ℚ
  top_k : Int
  temperature : ℚ
  use_beam_search : Bool
  stop : List String
  max_tokens : Nat
  repetition_penalty : ℚ
deriving DecidableEq

/-- The `stop_sequences` argument of `VLLMPipeline.__call__`, a Python
`Union[str, List[str]]` defaulting to `None`. -/
inductive StopSequences where
  | pyNone
  | str (s : String)
  | list (l : List String)
deriving DecidableEq

/-- The while-loop of `VLLMPipeline.__call__` (lines 100-112): repeatedly
drive the event loop one async step; on each item assert that there is
exactly one candidate output, yield the new portion of the cumulative text
(or the whole cumulative text when `incremental_generation` is false) and
remember the cumulative length; a `StopAsyncIteration` ends the loop, any
other exception (and an assertion failure) escapes after the fragments
yielded so far. -/
def pipelineYieldLoop (incr : Bool) :
    Nat → List RequestOutput → StreamEnd → List (List Char) × Option PyError
  | _, [], .stopIteration => ([], none)
  | _, [], .raise e => ([], some (.engineError e))
  | genLen, ro :: rest, ending =>
    match ro.outputs with
    | [o] =>
      let frag := if incr then o.text.drop genLen else o.text
      let r := pipelineYieldLoop incr o.text.length rest ending
      (frag :: r.1, r.2)
    | _ => ([], some .assertionError)

/-- Everything observable about one run of `VLLMPipeline.__call__`: the
`SamplingParams` handed to the engine, the rendered prompt text handed to the
engine, the engine stream that was consumed, the string fragments yielded,
and the exception that escaped the generator, if any. -/
structure CallResult where
  params : SamplingParams
  prompt_text : List Char
  stream : EngineStream
  fragments : List (List Char)
  error : Option PyError

/-- Model of `VLLMPipeline.__call__` (lines 44-112 of `predict.py`).
`engineGenerate` models `self.engine.generate` composed with
`generate_stream`: the engine's response stream to a prompt and sampling
parameters.  Steps, in source order: normalize `top_k` (None or 0 becomes
-1); `stop_token_ids = stop_token_ids or []` then append the EOS id;
normalize `stop_sequences` into the base `stop` list; append the decoding of
every stop token id; build `SamplingParams`; render the prompt through
`apply_chat_template(prompt, tokenize=False, add_generation_prompt=True)`;
run the yield loop. -/
def VLLMPipeline.call (tok : Tokenizer)
    (engineGenerate : List Char → SamplingParams → EngineStream)
    (prompt : List Message) (max_new_tokens : Nat)
    (temperature : ℚ) (top_p : ℚ) (top_k : Option Int)
    (stop_sequences : StopSequences) (stop_token_ids : Option (List Nat))
    (repetition_penalty : ℚ) (incremental_generation : Bool) : CallResult :=
  let top_k' : Int :=
    match top_k with
    | none => -1
    | some k => if k = 0 then -1 else k
  let ids : List Nat := stop_token_ids.getD [] ++ [tok.eos_token_id]
  let stop0 : List String :=
    match stop_sequences with
    | .str s => if s ≠ "" then [s] else []
    | .list l => if 0 < l.length then l else []
    | .pyNone => []
  let stops := stop0 ++ ids.map tok.decode
  let sp : SamplingParams :=
    { n := 1, top_p := top_p, top_k := top_k', temperature := temperature,
      use_beam_search := false, stop := stops, max_tokens := max_new_tokens,
      repetition_penalty := repetition_penalty }
  let text := tok.apply_chat_template prompt false true
  let stream := engineGenerate text sp
  let r := pipelineYieldLoop incremental_generation 0 stream.items stream.ending
  { params := sp, prompt_text := text, stream := stream,
    fragments := r.1, error := r.2 }

/-- Model of `Predictor.predict` (lines 126-165): build the two-message
chat prompt (system message first, then user message) and call the pipeline;
`stop_sequences`, `stop_token_ids` keep their `None` defaults and
`incremental_generation` its `True` default. -/
def Predictor.predict (tok : Tokenizer)
    (engineGenerate : List Char → SamplingParams → EngineStream)
    (prompt system_prompt : String) (max_new_tokens : Nat)
    (temperature top_p : ℚ) (top_k : Int) (repetition_penalty : ℚ) : CallResult :=
  VLLMPipeline.call tok engineGenerate
    [{ role := "system", content := system_prompt },
     { role := "user", content := prompt }]
    max_new_tokens temperature top_p (some top_k) .pyNone none
    repetition_penalty true

/-- The cumulative generated texts carried by a stream of request outputs
(the text of the single candidate of each item). -/
def cumTexts (items : List RequestOutput) : List (List Char) :=
  items.map fun ro => (ro.outputs.headD { text := [] }).text

/-- Follows the spec's words for the bridging claim: the synchronous stream
yields, for each item of the asynchronous stream in order, exactly one
fragment — the part of that item's cumulative text past the previous
cumulative length when incremental, the whole cumulative text otherwise —
and ends when the asynchronous stream ends. -/
def syncFragmentsSpec (incr : Bool) : Nat → List (List Char) → List (List Char)
  | _, [] => []
  | g, t :: rest => (if incr then t.drop g else t) :: syncFragmentsSpec incr t.length rest

/-- Successive texts form a chain in which each one extends the previous. -/
def prefixChain : List (List Char) → Bool
  | a :: b :: rest => a.isPrefixOf b && prefixChain (b :: rest)
  | _ => true

/-- The normalization of `stop_sequences` as the claim states it: a non-empty
string becomes a singleton list, a non-empty list is kept as is, anything
else becomes the empty list. -/
def normalizeStopSequences : StopSequences → List String
  | .str s => if s ≠ "" then [s] else []
  | .list l => if 0 < l.length then l else []
  | .pyNone => []

/-- The error escaping the yield loop when the stream's items are all well
formed: none on `StopAsyncIteration`, the engine's exception otherwise. -/
def streamEndError : StreamEnd → Option PyError
  | .stopIteration => none
  | .raise e => some (.engineError e)


/-! ## Helper lemmas -/

theorem syncFragmentsSpec_length (incr : Bool) :
    ∀ (g : Nat) (ts : List (List Char)),
      (syncFragmentsSpec incr g ts).length = ts.length
  | _, [] => rfl
  | g, t :: rest => by
    simp [syncFragmentsSpec, syncFragmentsSpec_length incr t.length rest]

theorem yieldLoop_spec (incr : Bool) :
    ∀ (g : Nat) (items : List RequestOutput) (ending : StreamEnd),
      (∀ ro ∈ items, ro.outputs.length = 1) →
      pipelineYieldLoop incr g items ending =
        (syncFragmentsSpec incr g (cumTexts items), streamEndError ending)
  | _, [], .stopIteration, _ => rfl
  | _, [], .raise _, _ => rfl
  | g, ro :: rest, ending, h => by
    obtain ⟨o, ho⟩ : ∃ o, ro.outputs = [o] :=
      List.length_eq_one.mp (h ro (List.mem_cons_self ro rest))
    have ih := yieldLoop_spec incr o.text.length rest ending
      (fun r hr => h r (List.mem_cons_of_mem ro hr))
    simp [pipelineYieldLoop, ho, cumTexts, syncFragmentsSpec, ih]

theorem isPrefixOf_exists (a b : List Char) (h : a.isPrefixOf b = true) :
    ∃ t, a ++ t = b := by
  simp at h
  exact h

theorem chain_extends :
    ∀ (p : List Char) (ts : List (List Char)),
      prefixChain (p :: ts) = true →
      ∀ i (h : i < ts.length), ∃ u, p ++ u = ts.get ⟨i, h⟩
  | _, [], _, i, h => absurd h (Nat.not_lt_zero i)
  | p, t :: rest, hc, i, h => by
    rw [show prefixChain (p :: t :: rest) =
          (p.isPrefixOf t && prefixChain (t :: rest)) from rfl] at hc
    obtain ⟨h1, h2⟩ := Bool.and_eq_true_iff.mp hc
    obtain ⟨a, ha⟩ := isPrefixOf_exists p t h1
    match i with
    | 0 => exact ⟨a, ha⟩
    | Nat.succ j =>
      obtain ⟨u, hu⟩ := chain_extends t rest h2 j (Nat.lt_of_succ_lt_succ h)
      exact ⟨a ++ u, by simp [← List.append_assoc, ha]; simpa using hu⟩

theorem syncFragmentsSpec_true_cons (g : Nat) (t : List Char)
    (rest : List (List Char)) :
    syncFragmentsSpec true g (t :: rest) =
      t.drop g :: syncFragmentsSpec true t.length rest := by
  simp [syncFragmentsSpec]

theorem syncFragments_take_flatten :
    ∀ (ts : List (List Char)) (p : List Char),
      prefixChain (p :: ts) = true →
      ∀ i (h : i < ts.length),
        ((syncFragmentsSpec true p.length ts).take (i + 1)).flatten =
          (ts.get ⟨i, h⟩).drop p.length
  | [], _, _, i, h => absurd h (Nat.not_lt_zero i)
  | t :: rest, p, hc, i, h => by
    rw [show prefixChain (p :: t :: rest) =
          (p.isPrefixOf t && prefixChain (t :: rest)) from rfl] at hc
    obtain ⟨h1, h2⟩ := Bool.and_eq_true_iff.mp hc
    obtain ⟨a, ha⟩ := isPrefixOf_exists p t h1
    match i with
    | 0 => simp [syncFragmentsSpec]
    | Nat.succ j =>
      have hj : j < rest.length := Nat.lt_of_succ_lt_succ h
      have ih := syncFragments_take_flatten rest t h2 j hj
      obtain ⟨u, hu⟩ := chain_extends t rest h2 j hj
      have hget : (t :: rest).get ⟨j + 1, h⟩ = rest.get ⟨j, hj⟩ := rfl
      rw [syncFragmentsSpec_true_cons, List.take_succ_cons, List.flatten_cons, ih,
        hget, ← hu, ← ha]
      simp [List.append_assoc, List.drop_left]

theorem prefixChain_nil_cons (ts : List (List Char)) :
    prefixChain ([] :: ts) = prefixChain ts := by
  cases ts with
  | nil => rfl
  | cons t rest =>
    show (([] : List Char).isPrefixOf t && prefixChain (t :: rest)) = _
    simp [List.isPrefixOf]

theorem chain_getLastD :
    ∀ (t : List Char) (rest : List (List Char)),
      prefixChain (t :: rest) = true → ∃ u, t ++ u = rest.getLastD t
  | t, [], _ => ⟨[], List.append_nil t⟩
  | t, r :: rs, hc => by
    rw [show prefixChain (t :: r :: rs) =
          (t.isPrefixOf r && prefixChain (r :: rs)) from rfl] at hc
    obtain ⟨h1, h2⟩ := Bool.and_eq_true_iff.mp hc
    obtain ⟨a, ha⟩ := isPrefixOf_exists t r h1
    obtain ⟨u, hu⟩ := chain_getLastD r rs h2
    refine ⟨a ++ u, ?_⟩
    rw [← List.append_assoc, ha, List.getLastD_cons]
    exact hu

theorem syncFragments_flatten :
    ∀ (ts : List (List Char)) (p : List Char),
      prefixChain (p :: ts) = true →
      (syncFragmentsSpec true p.length ts).flatten = (ts.getLastD p).drop p.length
  | [], p, _ => by simp [syncFragmentsSpec, List.getLastD]
  | t :: rest, p, hc => by
    rw [show prefixChain (p :: t :: rest) =
          (p.isPrefixOf t && prefixChain (t :: rest)) from rfl] at hc
    obtain ⟨h1, h2⟩ := Bool.and_eq_true_iff.mp hc
    obtain ⟨a, ha⟩ := isPrefixOf_exists p t h1
    obtain ⟨u, hu⟩ := chain_getLastD t rest h2
    have ih := syncFragments_flatten rest t h2
    rw [syncFragmentsSpec_true_cons, List.flatten_cons, ih,
      List.getLastD_cons, ← hu, ← ha]
    simp [List.append_assoc, List.drop_left]

theorem call_run_spec (tok : Tokenizer)
    (eg : List Char → SamplingParams → EngineStream) (prompt : List Message)
    (mnt : Nat) (temp tp : ℚ) (tk : Option Int) (ss : StopSequences)
    (sti : Option (List Nat)) (rp : ℚ) (incr : Bool)
    (h : ∀ ro ∈ (VLLMPipeline.call tok eg prompt mnt temp tp tk ss sti rp incr).stream.items,
      ro.outputs.length = 1) :
    (VLLMPipeline.call tok eg prompt mnt temp tp tk ss sti rp incr).fragments =
      syncFragmentsSpec incr 0
        (cumTexts (VLLMPipeline.call tok eg prompt mnt temp tp tk ss sti rp incr).stream.items) ∧
    (VLLMPipeline.call tok eg prompt mnt temp tp tk ss sti rp incr).error =
      streamEndError (VLLMPipeline.call tok eg prompt mnt temp tp tk ss sti rp incr).stream.ending := by
  have hs := yieldLoop_spec incr 0
    (VLLMPipeline.call tok eg prompt mnt temp tp tk ss sti rp incr).stream.items
    (VLLMPipeline.call tok eg prompt mnt temp tp tk ss sti rp incr).stream.ending h
  exact ⟨congrArg Prod.fst hs, congrArg Prod.snd hs⟩

/-! ## Claim theorems -/

/-- C2: for every filesystem state, `Predictor.setup` invokes the weight
download exactly when the weights path `MODEL_ID` does not exist, and when it
does, the single invocation is against the fixed `WEIGHTS_URL` with
destination `MODEL_ID`; when the path exists, no download is invoked. -/
theorem setup_download_exactly_when_missing
    (fs : String → Bool) (runPget : String → String → Nat) :
    (fs MODEL_ID = false →
      (Predictor.setup fs runPget).downloads = [(WEIGHTS_URL, MODEL_ID)]) ∧
    (fs MODEL_ID = true → (Predictor.setup fs runPget).downloads = []) := by
  constructor
  · intro hf
    by_cases hc : runPget WEIGHTS_URL MODEL_ID = 0 <;>
      simp [Predictor.setup, download_weights, hf, hc]
  · intro ht
    simp [Predictor.setup, ht]

/-- Witness for C2 at two concrete filesystem states. -/
theorem setup_download_exactly_when_missing_witness :
    (Predictor.setup (fun _ => false) (fun _ _ => 0)).downloads
        = [(WEIGHTS_URL, MODEL_ID)] ∧
    (Predictor.setup (fun _ => true) (fun _ _ => 0)).downloads = [] :=
  ⟨(setup_download_exactly_when_missing (fun _ => false) (fun _ _ => 0)).1 rfl,
   (setup_download_exactly_when_missing (fun _ => true) (fun _ _ => 0)).2 rfl⟩

/-- C3: weight provisioning is idempotent: when the weights path `MODEL_ID`
exists, the provisioning check performs no download and leaves the filesystem
unchanged; moreover after any successful run of `setup`, a second run
performs no download and leaves the filesystem unchanged. -/
theorem setup_idempotent (fs : String → Bool) (runPget : String → String → Nat) :
    (fs MODEL_ID = true →
      (Predictor.setup fs runPget).downloads = [] ∧
      (Predictor.setup fs runPget).fs = fs) ∧
    ((Predictor.setup fs runPget).error = none →
      (Predictor.setup ((Predictor.setup fs runPget).fs) runPget).downloads = [] ∧
      (Predictor.setup ((Predictor.setup fs runPget).fs) runPget).fs =
        (Predictor.setup fs runPget).fs) := by
  have hexists : (Predictor.setup fs runPget).error = none →
      (Predictor.setup fs runPget).fs MODEL_ID = true := by
    by_cases hm : fs MODEL_ID <;> by_cases hc : runPget WEIGHTS_URL MODEL_ID = 0 <;>
      simp [Predictor.setup, download_weights, hm, hc]
  constructor
  · intro ht
    simp [Predictor.setup, ht]
  · intro he
    have hm := hexists he
    generalize hg : (Predictor.setup fs runPget).fs = fs2 at hm ⊢
    constructor
    · simp [Predictor.setup, hm]
    · simp [Predictor.setup, hm]

/-- Witness for C3 at a concrete filesystem state where the path exists. -/
theorem setup_idempotent_witness :
    ((Predictor.setup (fun _ => true) (fun _ _ => 1)).downloads = [] ∧
      (Predictor.setup (fun _ => true) (fun _ _ => 1)).fs = (fun _ => true)) ∧
    ((Predictor.setup
        ((Predictor.setup (fun _ => false) (fun _ _ => 0)).fs)
        (fun _ _ => 0)).downloads = []) := by
  refine ⟨(setup_idempotent (fun _ => true) (fun _ _ => 1)).1 rfl, ?_⟩
  exact ((setup_idempotent (fun _ => false) (fun _ _ => 0)).2 rfl).1

/-- C5: for every predict call, the sampling knobs temperature, top_p,
max_new_tokens and repetition_penalty are passed unchanged into the engine's
`SamplingParams` (max_new_tokens as max_tokens), with `n` fixed to 1 and beam
search disabled. -/
theorem predict_knobs_unchanged (tok : Tokenizer)
    (eg : List Char → SamplingParams → EngineStream)
    (prompt system_prompt : String) (max_new_tokens : Nat)
    (temperature top_p : ℚ) (top_k : Int) (repetition_penalty : ℚ) :
    (Predictor.predict tok eg prompt system_prompt max_new_tokens
        temperature top_p top_k repetition_penalty).params.temperature = temperature ∧
    (Predictor.predict tok eg prompt system_prompt max_new_tokens
        temperature top_p top_k repetition_penalty).params.top_p = top_p ∧
    (Predictor.predict tok eg prompt system_prompt max_new_tokens
        temperature top_p top_k repetition_penalty).params.max_tokens = max_new_tokens ∧
    (Predictor.predict tok eg prompt system_prompt max_new_tokens
        temperature top_p top_k repetition_penalty).params.repetition_penalty
      = repetition_penalty ∧
    (Predictor.predict tok eg prompt system_prompt max_new_tokens
        temperature top_p top_k repetition_penalty).params.n = 1 ∧
    (Predictor.predict tok eg prompt system_prompt max_new_tokens
        temperature top_p top_k repetition_penalty).params.use_beam_search = false :=
  ⟨rfl, rfl, rfl, rfl, rfl, rfl⟩

/-- C6: for every predict call, the prompt sent to the engine is the
tokenizer's chat template applied to exactly two messages — the system
message carrying `system_prompt` first, then the user message carrying
`prompt` — with `tokenize` false and `add_generation_prompt` true. -/
theorem predict_prompt_rendering (tok : Tokenizer)
    (eg : List Char → SamplingParams → EngineStream)
    (prompt system_prompt : String) (max_new_tokens : Nat)
    (temperature top_p : ℚ) (top_k : Int) (repetition_penalty : ℚ) :
    (Predictor.predict tok eg prompt system_prompt max_new_tokens
        temperature top_p top_k repetition_penalty).prompt_text =
      tok.apply_chat_template
        [{ role := "system", content := system_prompt },
         { role := "user", content := prompt }]
        false true :=
  rfl

/-- C9: the `top_k` knob is normalized before reaching the engine: `None` or
0 becomes -1, every other value is passed to `SamplingParams` unchanged. -/
theorem call_top_k_normalized (tok : Tokenizer)
    (eg : List Char → SamplingParams → EngineStream) (prompt : List Message)
    (mnt : Nat) (temp tp : ℚ) (tk : Option Int) (ss : StopSequences)
    (sti : Option (List Nat)) (rp : ℚ) (incr : Bool) :
    ((tk = none ∨ tk = some 0) →
      (VLLMPipeline.call tok eg prompt mnt temp tp tk ss sti rp incr).params.top_k = -1) ∧
    (∀ k : Int, tk = some k → k ≠ 0 →
      (VLLMPipeline.call tok eg prompt mnt temp tp tk ss sti rp incr).params.top_k = k) := by
  constructor
  · rintro (h | h) <;> subst h
    · rfl
    · show (if (0 : Int) = 0 then (-1 : Int) else 0) = -1
      rw [if_pos rfl]
  · intro k hk hk0
    subst hk
    show (if k = 0 then (-1 : Int) else k) = k
    rw [if_neg hk0]

/-- Witness for C9: `top_k = 0` is normalized to -1 and `top_k = 5` passes
through. -/
theorem call_top_k_normalized_witness :
    (VLLMPipeline.call ⟨0, fun _ => "", fun _ _ _ => []⟩
        (fun _ _ => { items := [], ending := .stopIteration })
        [] 0 0 0 (some 0) .pyNone none 0 true).params.top_k = -1 ∧
    (VLLMPipeline.call ⟨0, fun _ => "", fun _ _ _ => []⟩
        (fun _ _ => { items := [], ending := .stopIteration })
        [] 0 0 0 (some 5) .pyNone none 0 true).params.top_k = 5 :=
  ⟨(call_top_k_normalized ⟨0, fun _ => "", fun _ _ _ => []⟩
      (fun _ _ => { items := [], ending := .stopIteration })
      [] 0 0 0 (some 0) .pyNone none 0 true).1 (Or.inr rfl),
   (call_top_k_normalized ⟨0, fun _ => "", fun _ _ _ => []⟩
      (fun _ _ => { items := [], ending := .stopIteration })
      [] 0 0 0 (some 5) .pyNone none 0 true).2 5 rfl (by decide)⟩

/-- C10: the stop list handed to the engine is the normalized caller
`stop_sequences` (non-empty string becomes a singleton, non-empty list is
kept, anything else becomes empty), then the decodings of the caller's
`stop_token_ids` in order, then the decoding of the tokenizer's EOS token id;
in particular the decoded EOS token is always in the stop list. -/
theorem call_stop_list (tok : Tokenizer)
    (eg : List Char → SamplingParams → EngineStream) (prompt : List Message)
    (mnt : Nat) (temp tp : ℚ) (tk : Option Int) (ss : StopSequences)
    (sti : Option (List Nat)) (rp : ℚ) (incr : Bool) :
    (VLLMPipeline.call tok eg prompt mnt temp tp tk ss sti rp incr).params.stop =
      normalizeStopSequences ss ++ (sti.getD []).map tok.decode ++
        [tok.decode tok.eos_token_id] ∧
    tok.decode tok.eos_token_id ∈
      (VLLMPipeline.call tok eg prompt mnt temp tp tk ss sti rp incr).params.stop := by
  have hs : (VLLMPipeline.call tok eg prompt mnt temp tp tk ss sti rp incr).params.stop =
      normalizeStopSequences ss ++
        ((sti.getD []) ++ [tok.eos_token_id]).map tok.decode := by
    cases ss <;> rfl
  constructor
  · rw [hs, List.map_append, List.append_assoc]
    rfl
  · rw [hs]
    refine List.mem_append.mpr (Or.inr ?_)
    exact List.mem_map.mpr ⟨tok.eos_token_id, by simp, rfl⟩

/-- C1: with `incremental_generation = True`, if the engine's successive
cumulative output texts form a chain in which each extends the previous,
then after the i-th fragment the text yielded so far by `__call__` is
exactly the i-th cumulative text — so each fragment is exactly the portion
of the cumulative text not yet yielded — and the concatenation of all
fragments equals the engine's final cumulative generated text. -/
theorem call_incremental_concat (tok : Tokenizer)
    (eg : List Char → SamplingParams → EngineStream) (prompt : List Message)
    (mnt : Nat) (temp tp : ℚ) (tk : Option Int) (ss : StopSequences)
    (sti : Option (List Nat)) (rp : ℚ)
    (hsing : ∀ ro ∈ (VLLMPipeline.call tok eg prompt mnt temp tp tk ss sti rp
        true).stream.items, ro.outputs.length = 1)
    (hchain : prefixChain (cumTexts (VLLMPipeline.call tok eg prompt mnt temp tp tk
        ss sti rp true).stream.items) = true) :
    ((VLLMPipeline.call tok eg prompt mnt temp tp tk ss sti rp
        true).fragments).flatten =
      (cumTexts (VLLMPipeline.call tok eg prompt mnt temp tp tk ss sti rp
        true).stream.items).getLastD [] ∧
    ∀ i (h : i < (cumTexts (VLLMPipeline.call tok eg prompt mnt temp tp tk ss sti rp
        true).stream.items).length),
      (((VLLMPipeline.call tok eg prompt mnt temp tp tk ss sti rp
          true).fragments).take (i + 1)).flatten =
        (cumTexts (VLLMPipeline.call tok eg prompt mnt temp tp tk ss sti rp
          true).stream.items).get ⟨i, h⟩ := by
  have hfrag := (call_run_spec tok eg prompt mnt temp tp tk ss sti rp true hsing).1
  have hchain' : prefixChain (([] : List Char) ::
      cumTexts (VLLMPipeline.call tok eg prompt mnt temp tp tk ss sti rp
        true).stream.items) = true := by
    rw [prefixChain_nil_cons]
    exact hchain
  constructor
  · rw [hfrag]
    have := syncFragments_flatten
      (cumTexts (VLLMPipeline.call tok eg prompt mnt temp tp tk ss sti rp
        true).stream.items) [] hchain'
    simpa using this
  · intro i h
    rw [hfrag]
    have := syncFragments_take_flatten
      (cumTexts (VLLMPipeline.call tok eg prompt mnt temp tp tk ss sti rp
        true).stream.items) [] hchain' i h
    simpa using this

/-- Witness for C1 on a two-item stream with cumulative texts "h", "hi". -/
theorem call_incremental_concat_witness :
    ((VLLMPipeline.call ⟨0, fun _ => "", fun _ _ _ => []⟩
        (fun _ _ => { items := [{ outputs := [{ text := ['h'] }] },
                                { outputs := [{ text := ['h', 'i'] }] }],
                      ending := .stopIteration })
        [] 0 0 0 none .pyNone none 0 true).fragments).flatten = ['h', 'i'] := by
  have h := call_incremental_concat ⟨0, fun _ => "", fun _ _ _ => []⟩
    (fun _ _ => { items := [{ outputs := [{ text := ['h'] }] },
                            { outputs := [{ text := ['h', 'i'] }] }],
                  ending := .stopIteration })
    [] 0 0 0 none .pyNone none 0 (by decide) (by decide)
  rw [h.1]
  rfl

/-- C4: faithful bridging: when every stream item is well formed, the
synchronous iterator of `__call__` yields exactly one fragment per item of
the engine's asynchronous stream, in the same order (the fragments are the
item-by-item fragments of the cumulative texts), its length equals the
number of items, and it terminates normally exactly when the asynchronous
stream ends in `StopAsyncIteration`. -/
theorem call_bridges_async_stream (tok : Tokenizer)
    (eg : List Char → SamplingParams → EngineStream) (prompt : List Message)
    (mnt : Nat) (temp tp : ℚ) (tk : Option Int) (ss : StopSequences)
    (sti : Option (List Nat)) (rp : ℚ) (incr : Bool)
    (hsing : ∀ ro ∈ (VLLMPipeline.call tok eg prompt mnt temp tp tk ss sti rp
        incr).stream.items, ro.outputs.length = 1) :
    (VLLMPipeline.call tok eg prompt mnt temp tp tk ss sti rp incr).fragments =
      syncFragmentsSpec incr 0 (cumTexts (VLLMPipeline.call tok eg prompt mnt temp
        tp tk ss sti rp incr).stream.items) ∧
    ((VLLMPipeline.call tok eg prompt mnt temp tp tk ss sti rp
        incr).fragments).length =
      ((VLLMPipeline.call tok eg prompt mnt temp tp tk ss sti rp
        incr).stream.items).length ∧
    ((VLLMPipeline.call tok eg prompt mnt temp tp tk ss sti rp
        incr).stream.ending = .stopIteration ↔
      (VLLMPipeline.call tok eg prompt mnt temp tp tk ss sti rp
        incr).error = none) := by
  have h := call_run_spec tok eg prompt mnt temp tp tk ss sti rp incr hsing
  refine ⟨h.1, ?_, ?_⟩
  · rw [h.1, syncFragmentsSpec_length]
    simp [cumTexts]
  · rw [h.2]
    generalize (VLLMPipeline.call tok eg prompt mnt temp tp tk ss sti rp
      incr).stream.ending = se
    cases se <;> simp [streamEndError]

/-- Witness for C4 on a concrete two-item stream. -/
theorem call_bridges_async_stream_witness :
    ((VLLMPipeline.call ⟨0, fun _ => "", fun _ _ _ => []⟩
        (fun _ _ => { items := [{ outputs := [{ text := ['a'] }] },
                                { outputs := [{ text := ['a', 'b'] }] }],
                      ending := .stopIteration })
        [] 0 0 0 none .pyNone none 0 false).fragments).length = 2 := by
  have h := call_bridges_async_stream ⟨0, fun _ => "", fun _ _ _ => []⟩
    (fun _ _ => { items := [{ outputs := [{ text := ['a'] }] },
                            { outputs := [{ text := ['a', 'b'] }] }],
                  ending := .stopIteration })
    [] 0 0 0 none .pyNone none 0 false (by decide)
  rw [h.2.1]
  rfl

/-- C7: no failure recovery: a nonzero `pget` exit status raised inside
`download_weights` propagates out of `setup` unchanged and the engine is not
constructed; an exception raised by the engine during generation propagates
out of `__call__` unchanged, `StopAsyncIteration` alone being caught to end
the stream. -/
theorem errors_propagate_unchanged :
    (∀ (fs : String → Bool) (runPget : String → String → Nat),
      fs MODEL_ID = false → runPget WEIGHTS_URL MODEL_ID ≠ 0 →
      (Predictor.setup fs runPget).error = some (runPget WEIGHTS_URL MODEL_ID) ∧
      (Predictor.setup fs runPget).engineConstructed = false) ∧
    (∀ (tok : Tokenizer) (eg : List Char → SamplingParams → EngineStream)
      (prompt : List Message) (mnt : Nat) (temp tp : ℚ) (tk : Option Int)
      (ss : StopSequences) (sti : Option (List Nat)) (rp : ℚ) (incr : Bool)
      (e : String),
      (∀ ro ∈ (VLLMPipeline.call tok eg prompt mnt temp tp tk ss sti rp
          incr).stream.items, ro.outputs.length = 1) →
      (VLLMPipeline.call tok eg prompt mnt temp tp tk ss sti rp
          incr).stream.ending = .raise e →
      (VLLMPipeline.call tok eg prompt mnt temp tp tk ss sti rp
          incr).error = some (.engineError e)) := by
  constructor
  · intro fs runPget hf hc
    simp [Predictor.setup, download_weights, hf, hc]
  · intro tok eg prompt mnt temp tp tk ss sti rp incr e hsing hend
    have h := (call_run_spec tok eg prompt mnt temp tp tk ss sti rp incr hsing).2
    rw [h, hend]
    rfl

/-- Witness for C7: a failing download on a missing path, and an engine
exception surfacing from a one-item stream. -/
theorem errors_propagate_unchanged_witness :
    (Predictor.setup (fun _ => false) (fun _ _ => 7)).error = some 7 ∧
    (VLLMPipeline.call ⟨0, fun _ => "", fun _ _ _ => []⟩
        (fun _ _ => { items := [{ outputs := [{ text := ['a'] }] }],
                      ending := .raise ("CUDA error") })
        [] 0 0 0 none .pyNone none 0 true).error =
      some (.engineError ("CUDA error")) :=
  ⟨(errors_propagate_unchanged.1 (fun _ => false) (fun _ _ => 7) rfl
      (by decide)).1,
   errors_propagate_unchanged.2 ⟨0, fun _ => "", fun _ _ _ => []⟩
      (fun _ _ => { items := [{ outputs := [{ text := ['a'] }] }],
                    ending := .raise ("CUDA error") })
      [] 0 0 0 none .pyNone none 0 true ("CUDA error") (by decide) rfl⟩

/-- C8: under the precondition that the engine honors the requested
candidate count — every emitted request output carries exactly `n` candidate
outputs for the `n` of the constructed `SamplingParams` — the assertion
`len(request_output.outputs) == 1` in `__call__` never fails, because `n` is
always 1; the assertion-failure branch is unreachable. -/
theorem call_assertion_unreachable (tok : Tokenizer)
    (eg : List Char → SamplingParams → EngineStream) (prompt : List Message)
    (mnt : Nat) (temp tp : ℚ) (tk : Option Int) (ss : StopSequences)
    (sti : Option (List Nat)) (rp : ℚ) (incr : Bool)
    (hn : ∀ ro ∈ (VLLMPipeline.call tok eg prompt mnt temp tp tk ss sti rp
        incr).stream.items,
      ro.outputs.length = (VLLMPipeline.call tok eg prompt mnt temp tp tk ss sti rp
        incr).params.n) :
    (VLLMPipeline.call tok eg prompt mnt temp tp tk ss sti rp incr).error ≠
      some .assertionError := by
  have hn1 : ∀ ro ∈ (VLLMPipeline.call tok eg prompt mnt temp tp tk ss sti rp
      incr).stream.items, ro.outputs.length = 1 := fun ro hro => hn ro hro
  have h := (call_run_spec tok eg prompt mnt temp tp tk ss sti rp incr hn1).2
  rw [h]
  generalize (VLLMPipeline.call tok eg prompt mnt temp tp tk ss sti rp
    incr).stream.ending = se
  cases se <;> simp [streamEndError]

/-- Witness for C8 on a concrete one-item stream with one candidate. -/
theorem call_assertion_unreachable_witness :
    (VLLMPipeline.call ⟨0, fun _ => "", fun _ _ _ => []⟩
        (fun _ _ => { items := [{ outputs := [{ text := ['a'] }] }],
                      ending := .stopIteration })
        [] 0 0 0 none .pyNone none 0 true).error ≠ some .assertionError :=
  call_assertion_unreachable ⟨0, fun _ => "", fun _ _ _ => []⟩
    (fun _ _ => { items := [{ outputs := [{ text := ['a'] }] }],
                  ending := .stopIteration })
    [] 0 0 0 none .pyNone none 0 true (by decide)
